import Mathlib

/-!
Verification of the door-pin access-control core against its specification.

The definitions below are a shallow embedding of the Python source:

* `src/utils.py` — `hash_secret`, `unlock_door`;
* `src/reader/reader.py` — `check_input`, `start_reader`, `stop_reader`;
* `src/reader/input_handler.py` — `KEY_CODES`, `decode_keypad_input`,
  the t9em branch of `read_keyboard_events`;
* `src/db.py` — `is_user_allowed_access` and the record shapes it reads;
* `src/door_manager.py` — `DoorManager.unlock`;
* `src/api/routes/pins.py` — the hashing step of `create_pin`.

Machine-level details that the claims do not depend on are parameters:
the SHA-512 hexadecimal digest is an arbitrary function
`D : List Nat → String` over byte lists, since every claim only uses the
structure that `hash_secret` builds around the digest.

One schema fact is load-bearing: the `User` ORM model of src/db.py
declares no `is_active` column, while src/reader/reader.py dereferences
`user.is_active` on every hash match; `userIsActive` below models that
attribute access as the `AttributeError` it raises.
-/

/-- UTF-8 encoding of one character as a list of byte values
(models the Python `str.encode("utf-8")` for one code point). -/
def utf8EncodeCharNat (c : Char) : List Nat :=
  let v := c.toNat
  if v < 0x80 then [v]
  else if v < 0x800 then [0xC0 + v / 64, 0x80 + v % 64]
  else if v < 0x10000 then
    [0xE0 + v / 4096, 0x80 + v / 64 % 64, 0x80 + v % 64]
  else
    [0xF0 + v / 262144, 0x80 + v / 4096 % 64, 0x80 + v / 64 % 64, 0x80 + v % 64]

/-- UTF-8 encoding of a string as a list of byte values
(models the Python `s.encode("utf-8")`). -/
def utf8Bytes (s : String) : List Nat :=
  s.data.flatMap utf8EncodeCharNat

/-- Lower-case hexadecimal digit for a value below 16. -/
def hexDigit (n : Nat) : Char :=
  if n < 10 then Char.ofNat (48 + n) else Char.ofNat (87 + n)

/-- Two-character lower-case hexadecimal rendering of one byte. -/
def byteToHex (b : Nat) : String :=
  String.mk [hexDigit (b / 16 % 16), hexDigit (b % 16)]

/-- Models the Python `bytes.hex()`: lower-case hex of a byte sequence. -/
def hexOfBytes (bs : List Nat) : String :=
  String.join (bs.map byteToHex)

/-- Shallow embedding of `hash_secret` (src/utils.py lines 70-101),
parametric in the SHA-512 hexadecimal digest `D` over byte lists.
An empty payload raises `ValueError` (modelled as `Except.error`).
A missing or empty salt gives the bare digest of the payload; otherwise
the result is the salt hex prepended to the digest of salt then payload,
exactly as the source builds it. -/
def hash_secret (D : List Nat → String) (payload : String) (salt : Option String) :
    Except String String :=
  if payload = "" then Except.error "Payload must be provided."
  else
    match salt with
    | some s =>
        if s = "" then Except.ok (D (utf8Bytes payload))
        else Except.ok (hexOfBytes (utf8Bytes s) ++ D (utf8Bytes s ++ utf8Bytes payload))
    | none => Except.ok (D (utf8Bytes payload))

/-- The value `hash_secret` returns for a non-empty payload and a present
salt: the salt hex prepended to the digest of salt followed by payload. -/
def saltedHash (D : List Nat → String) (salt payload : String) : String :=
  if salt = "" then D (utf8Bytes payload)
  else hexOfBytes (utf8Bytes salt) ++ D (utf8Bytes salt ++ utf8Bytes payload)

theorem hash_secret_ok (D : List Nat → String) (payload salt : String)
    (h : payload ≠ "") :
    hash_secret D payload (some salt) = Except.ok (saltedHash D salt payload) := by
  unfold hash_secret saltedHash
  rw [if_neg h]
  by_cases hs : salt = "" <;> simp [hs]

/-- The fixed t9em keypad table `KEY_CODES`
(src/reader/input_handler.py lines 21-34). -/
def KEY_CODES : List (String × String) :=
  [("0225", "1"), ("0210", "2"), ("0195", "3"), ("0180", "4"),
   ("0165", "5"), ("0150", "6"), ("0135", "7"), ("0120", "8"),
   ("0105", "9"), ("0240", "0"), ("0090", "*"), ("0075", "#")]

/-- Shallow embedding of `decode_keypad_input`
(src/reader/input_handler.py lines 72-73): `KEY_CODES.get(seq, "")`. -/
def decode_keypad_input (input_sequence : String) : String :=
  match KEY_CODES.lookup input_sequence with
  | some v => v
  | none => ""

/-- A time of day as read from a `Time` column; Python `datetime.time`
values compare lexicographically on (hour, minute, second). -/
structure TimeOfDay where
  hour : Nat
  minute : Nat
  second : Nat
deriving DecidableEq, Repr

/-- Lexicographic order on times of day, as Python compares `time` values. -/
def timeLe (a b : TimeOfDay) : Bool :=
  a.hour < b.hour ||
  (a.hour == b.hour &&
    (a.minute < b.minute || (a.minute == b.minute && a.second ≤ b.second)))

/-- A calendar date as read from a `Date` column; Python `datetime.date`
values compare lexicographically on (year, month, day). -/
structure Date where
  year : Nat
  month : Nat
  day : Nat
deriving DecidableEq, Repr

/-- Lexicographic order on dates, as Python compares `date` values. -/
def dateLe (a b : Date) : Bool :=
  a.year < b.year ||
  (a.year == b.year &&
    (a.month < b.month || (a.month == b.month && a.day ≤ b.day)))

/-- A `User` row as the `User` ORM model of src/db.py lines 63-80
declares it, restricted to the columns the access-control core reads:
id, name and role. The model declares no `is_active` column — only
`APIKey` has one — which matters below. -/
structure DBUser where
  id : Nat
  name : String
  role : String
deriving DecidableEq, Repr

/-- Models the Python attribute access `user.is_active` performed at
src/reader/reader.py lines 25 and 54. The `User` ORM model of src/db.py
defines no `is_active` column and nothing patches one in, so on every
`User` row this lookup raises `AttributeError`, whatever the row holds. -/
def userIsActive (_ : DBUser) : Except String Bool :=
  Except.error "AttributeError: is_active"

/-- A stored PIN record (`Pin` rows of src/db.py, with the joined owner). -/
structure PinRecord where
  user : DBUser
  salt : String
  hashed_pin : String
deriving DecidableEq, Repr

/-- A stored RFID record (`Rfid` rows of src/db.py, with the joined owner). -/
structure RfidRecord where
  user : DBUser
  salt : String
  hashed_uuid : String
deriving DecidableEq, Repr

/-- A recurring guest schedule row (`RecurringSchedule` of src/db.py);
`day_of_week` is 0 for Monday through 6 for Sunday. -/
structure RecurringSchedule where
  user_id : Nat
  day_of_week : Nat
  start_time : TimeOfDay
  end_time : TimeOfDay
deriving DecidableEq, Repr

/-- A one-time guest access row (`OneTimeAccess` of src/db.py). -/
structure OneTimeAccess where
  user_id : Nat
  start_date : Date
  end_date : Date
  start_time : TimeOfDay
  end_time : TimeOfDay
deriving DecidableEq, Repr

/-- A read-only snapshot of the tables `is_user_allowed_access` queries. -/
structure Snapshot where
  users : List DBUser
  recurring : List RecurringSchedule
  oneTime : List OneTimeAccess
deriving Repr

/-- The current instant as `is_user_allowed_access` observes it through
`datetime.datetime.now()`: time of day, date, and weekday
(`weekday()` is 0 for Monday through 6 for Sunday). -/
structure Now where
  time : TimeOfDay
  date : Date
  weekday : Nat
deriving DecidableEq, Repr

/-- Shallow embedding of `is_user_allowed_access` (src/db.py lines 654-711).
Querying with `.first()` over a filter is modelled by `List.find?` with the
same predicate; every comparison is the one the source writes, with both
ends of each window inclusive. A missing user or a non-guest role returns
`true`, as does a guest with no schedule rows at all. -/
def is_user_allowed_access (snap : Snapshot) (now : Now) (user_id : Nat) : Bool :=
  match snap.users.find? (fun u => u.id == user_id) with
  | some user =>
      if user.role == "guest" then
        let has_recurring :=
          (snap.recurring.find? (fun r => r.user_id == user_id)).isSome
        let has_one_time :=
          (snap.oneTime.find? (fun o => o.user_id == user_id)).isSome
        if !has_recurring && !has_one_time then true
        else
          let recurring_access := snap.recurring.find? (fun r =>
            r.user_id == user_id && r.day_of_week == now.weekday &&
            timeLe r.start_time now.time && timeLe now.time r.end_time)
          if recurring_access.isSome then true
          else
            (snap.oneTime.find? (fun o =>
              o.user_id == user_id &&
              dateLe o.start_date now.date && dateLe now.date o.end_date &&
              timeLe o.start_time now.time && timeLe now.time o.end_time)).isSome
      else true
  | none => true

/-- The body of the per-record branch of `check_input`
(src/reader/reader.py lines 24-47 and 53-76, identical for PIN and RFID),
embedded as written: the first statement reads `user.is_active`, which
raises `AttributeError` on every `User` row because the column does not
exist, so the inactive-user denial, the guest schedule branch and the
final allow below it are unreachable at runtime; they are kept here
exactly as the source writes them. -/
def ownerDecision (snap : Snapshot) (now : Now) (user : DBUser) : Except String Bool :=
  match userIsActive user with
  | Except.error e => Except.error e
  | Except.ok active =>
      if !active then Except.ok false
      else if user.role == "guest" then
        Except.ok (is_user_allowed_access snap now user.id)
      else Except.ok true

/-- The PIN loop of `check_input` (src/reader/reader.py lines 21-47):
recompute the salted hash for each record in order and, on the first
record whose stored hash matches, run the per-record owner branch —
whose `user.is_active` read raises; `hash_secret` raising (empty
payload) likewise aborts the whole check. -/
def checkPins (D : List Nat → String) (snap : Snapshot) (now : Now)
    (input_value : String) : List PinRecord → Except String (Option Bool)
  | [] => Except.ok none
  | pin :: rest =>
      match hash_secret D input_value (some pin.salt) with
      | Except.error e => Except.error e
      | Except.ok h =>
          if h == pin.hashed_pin then
            match ownerDecision snap now pin.user with
            | Except.error e => Except.error e
            | Except.ok b => Except.ok (some b)
          else checkPins D snap now input_value rest

/-- The RFID loop of `check_input` (src/reader/reader.py lines 50-76),
identical to the PIN loop over the RFID records. -/
def checkRfids (D : List Nat → String) (snap : Snapshot) (now : Now)
    (input_value : String) : List RfidRecord → Except String (Option Bool)
  | [] => Except.ok none
  | rfid :: rest =>
      match hash_secret D input_value (some rfid.salt) with
      | Except.error e => Except.error e
      | Except.ok h =>
          if h == rfid.hashed_uuid then
            match ownerDecision snap now rfid.user with
            | Except.error e => Except.error e
            | Except.ok b => Except.ok (some b)
          else checkRfids D snap now input_value rest

/-- Shallow embedding of `check_input` (src/reader/reader.py lines 19-79):
scan all PIN records; only if none matches, scan all RFID records; a miss
over both sets returns `false`. The `Except.error` case covers the two
uncaught raises: the `ValueError` from `hash_secret` on an empty
candidate, and the `AttributeError` from the `user.is_active` read on
any hash match. -/
def check_input (D : List Nat → String) (pins : List PinRecord)
    (rfids : List RfidRecord) (snap : Snapshot) (now : Now)
    (input_value : String) : Except String Bool :=
  match checkPins D snap now input_value pins with
  | Except.error e => Except.error e
  | Except.ok (some b) => Except.ok b
  | Except.ok none =>
      match checkRfids D snap now input_value rfids with
      | Except.error e => Except.error e
      | Except.ok (some b) => Except.ok b
      | Except.ok none => Except.ok false

/-- Claim-side predicate: candidate `s` matches PIN record `p` exactly when
the salted hash of `p.salt` followed by `s` equals the stored hash. -/
def pinMatches (D : List Nat → String) (s : String) (p : PinRecord) : Bool :=
  saltedHash D p.salt s == p.hashed_pin

/-- Claim-side predicate: candidate `s` matches RFID record `r` exactly when
the salted hash of `r.salt` followed by `s` equals the stored hash. -/
def rfidMatches (D : List Nat → String) (s : String) (r : RfidRecord) : Bool :=
  saltedHash D r.salt s == r.hashed_uuid

theorem checkPins_eq_find (D : List Nat → String) (snap : Snapshot) (now : Now)
    (s : String) (hs : s ≠ "") (pins : List PinRecord) :
    checkPins D snap now s pins =
      match pins.find? (pinMatches D s) with
      | some _ => Except.error "AttributeError: is_active"
      | none => Except.ok none := by
  induction pins with
  | nil => rfl
  | cons pin rest ih =>
      rw [checkPins, hash_secret_ok D s pin.salt hs]
      by_cases h : pinMatches D s pin = true
      · rw [List.find?_cons_of_pos _ h]
        unfold pinMatches at h
        simp [h, ownerDecision, userIsActive]
      · rw [List.find?_cons_of_neg _ (by simpa using h)]
        unfold pinMatches at h
        simp only [Bool.not_eq_true] at h
        simp only [h, Bool.false_eq_true, if_false]
        exact ih

theorem checkRfids_eq_find (D : List Nat → String) (snap : Snapshot) (now : Now)
    (s : String) (hs : s ≠ "") (rfids : List RfidRecord) :
    checkRfids D snap now s rfids =
      match rfids.find? (rfidMatches D s) with
      | some _ => Except.error "AttributeError: is_active"
      | none => Except.ok none := by
  induction rfids with
  | nil => rfl
  | cons rfid rest ih =>
      rw [checkRfids, hash_secret_ok D s rfid.salt hs]
      by_cases h : rfidMatches D s rfid = true
      · rw [List.find?_cons_of_pos _ h]
        unfold rfidMatches at h
        simp [h, ownerDecision, userIsActive]
      · rw [List.find?_cons_of_neg _ (by simpa using h)]
        unfold rfidMatches at h
        simp only [Bool.not_eq_true] at h
        simp only [h, Bool.false_eq_true, if_false]
        exact ih

theorem check_input_characterization (D : List Nat → String) (pins : List PinRecord)
    (rfids : List RfidRecord) (snap : Snapshot) (now : Now) (s : String) (hs : s ≠ "") :
    check_input D pins rfids snap now s =
      match pins.find? (pinMatches D s) with
      | some _ => Except.error "AttributeError: is_active"
      | none =>
          match rfids.find? (rfidMatches D s) with
          | some _ => Except.error "AttributeError: is_active"
          | none => Except.ok false := by
  unfold check_input
  rw [checkPins_eq_find D snap now s hs, checkRfids_eq_find D snap now s hs]
  cases pins.find? (pinMatches D s) with
  | some p => rfl
  | none =>
      cases rfids.find? (rfidMatches D s) with
      | some r => rfl
      | none => rfl

/-- A concrete digest stand-in used by witnesses and counterexamples:
hex of the input bytes, so distinct inputs stay distinct. -/
def D0 : List Nat → String := hexOfBytes

/-- Concrete admin user for witnesses. -/
def adminUser : DBUser := ⟨1, "alice", "admin"⟩

/-- A second concrete user; like every `User` row it carries no
`is_active` column at all. -/
def bobUser : DBUser := ⟨2, "bob", "admin"⟩

/-- Concrete guest user with no schedule rows for witnesses. -/
def freeGuest : DBUser := ⟨7, "carol", "guest"⟩

/-- Concrete snapshot for witnesses. -/
def snap0 : Snapshot := ⟨[adminUser, bobUser, freeGuest], [], []⟩

/-- Concrete instant for witnesses. -/
def now0 : Now := ⟨⟨12, 0, 0⟩, ⟨2026, 10, 12⟩, 0⟩

/-- Concrete PIN record owned by the active admin, storing the salted
hash of the plaintext 1234 under salt ab. -/
def pinA : PinRecord := ⟨adminUser, "ab", saltedHash D0 "ab" "1234"⟩

/-- Concrete PIN record owned by bob, storing the salted hash of the
plaintext 9999 under salt cd. -/
def pinB : PinRecord := ⟨bobUser, "cd", saltedHash D0 "cd" "9999"⟩

/-- C1: evaluation of `check_input` at a candidate that hash-matches a
stored PIN record. The scan does select the record by exact salted-hash
equality, but the match branch then raises `AttributeError` at the
`user.is_active` dereference of src/reader/reader.py line 25 — the
`User` model declares no such column — so verification never returns
the owner-determined result the claim describes. -/
theorem check_input_match_raises_attribute_error :
    pinMatches D0 "1234" pinA = true ∧
    check_input D0 [pinA] [] snap0 now0 "1234" =
      Except.error "AttributeError: is_active" ∧
    ∀ b : Bool, check_input D0 [pinA] [] snap0 now0 "1234" ≠ Except.ok b := by
  refine ⟨by decide, rfl, ?_⟩
  intro b hb
  rw [show check_input D0 [pinA] [] snap0 now0 "1234" =
      Except.error "AttributeError: is_active" from rfl] at hb
  exact Except.noConfusion hb

/-- C3: a guest whose id owns zero recurring windows and zero one-time
windows is allowed access at every instant. -/
theorem guest_without_windows_always_allowed (snap : Snapshot) (now : Now)
    (uid : Nat) (u : DBUser)
    (hu : snap.users.find? (fun v => v.id == uid) = some u)
    (hrole : u.role = "guest")
    (hrec : ∀ r ∈ snap.recurring, r.user_id ≠ uid)
    (hone : ∀ o ∈ snap.oneTime, o.user_id ≠ uid) :
    is_user_allowed_access snap now uid = true := by
  unfold is_user_allowed_access
  rw [hu]
  have h1 : snap.recurring.find? (fun r => r.user_id == uid) = none := by
    rw [List.find?_eq_none]
    intro r hr
    simpa using hrec r hr
  have h2 : snap.oneTime.find? (fun o => o.user_id == uid) = none := by
    rw [List.find?_eq_none]
    intro o ho
    simpa using hone o ho
  simp [hrole, h1, h2]

theorem guest_without_windows_always_allowed_witness :
    (snap0.users.find? (fun v => v.id == 7) = some freeGuest ∧
      freeGuest.role = "guest" ∧
      (∀ r ∈ snap0.recurring, r.user_id ≠ 7) ∧
      (∀ o ∈ snap0.oneTime, o.user_id ≠ 7)) ∧
    is_user_allowed_access snap0 now0 7 = true :=
  ⟨⟨by decide, rfl, by decide, by decide⟩,
    guest_without_windows_always_allowed snap0 now0 7 freeGuest
      (by decide) rfl (by decide) (by decide)⟩

/-- Concrete guest with one recurring Wednesday 09:00 to 17:00 window. -/
def wedGuest : DBUser := ⟨9, "dora", "guest"⟩

/-- Snapshot holding exactly one recurring window for the guest:
day_of_week 2 (Wednesday), start 09:00:00, end 17:00:00. -/
def wedSnap : Snapshot :=
  ⟨[wedGuest], [⟨9, 2, ⟨9, 0, 0⟩, ⟨17, 0, 0⟩⟩], []⟩

/-- C4: with a single recurring window on Wednesday 09:00 to 17:00, the
guest is allowed at Wednesday 09:00 and at Wednesday 17:00 (both
boundaries inclusive) and denied at Wednesday 08:59 and at Thursday
12:00. -/
theorem guest_recurring_window_boundaries :
    is_user_allowed_access wedSnap ⟨⟨9, 0, 0⟩, ⟨2026, 1, 7⟩, 2⟩ 9 = true ∧
    is_user_allowed_access wedSnap ⟨⟨17, 0, 0⟩, ⟨2026, 1, 7⟩, 2⟩ 9 = true ∧
    is_user_allowed_access wedSnap ⟨⟨8, 59, 0⟩, ⟨2026, 1, 7⟩, 2⟩ 9 = false ∧
    is_user_allowed_access wedSnap ⟨⟨12, 0, 0⟩, ⟨2026, 1, 8⟩, 3⟩ 9 = false := by
  decide

/-- C6 counterexample: the empty candidate does not return a quiet miss;
with one stored PIN record present, `check_input` raises the
`ValueError` from `hash_secret` instead of returning false. -/
theorem empty_candidate_raises :
    check_input D0 [pinA] [] snap0 now0 "" =
      Except.error "Payload must be provided." ∧
    check_input D0 [pinA] [] snap0 now0 "" ≠ Except.ok false :=
  ⟨rfl, by simp [check_input, checkPins, hash_secret]⟩

/-- C6 (amended): for every non-empty candidate that matches no stored
PIN and no stored RFID record, verification returns false and no
exception escapes. -/
theorem miss_returns_false_without_exception (D : List Nat → String)
    (pins : List PinRecord) (rfids : List RfidRecord) (snap : Snapshot)
    (now : Now) (s : String) (hs : s ≠ "")
    (hp : ∀ p ∈ pins, pinMatches D s p = false)
    (hr : ∀ r ∈ rfids, rfidMatches D s r = false) :
    check_input D pins rfids snap now s = Except.ok false := by
  rw [check_input_characterization D pins rfids snap now s hs]
  rw [List.find?_eq_none.mpr (fun p hp' => by simp [hp p hp'])]
  rw [List.find?_eq_none.mpr (fun r hr' => by simp [hr r hr'])]

theorem miss_returns_false_without_exception_witness :
    (("0000" : String) ≠ "" ∧
      (∀ p ∈ [pinA], pinMatches D0 "0000" p = false) ∧
      (∀ r ∈ ([] : List RfidRecord), rfidMatches D0 "0000" r = false)) ∧
    check_input D0 [pinA] [] snap0 now0 "0000" = Except.ok false :=
  ⟨⟨by decide, by decide, by decide⟩,
    miss_returns_false_without_exception D0 [pinA] [] snap0 now0 "0000"
      (by decide) (by decide) (by decide)⟩

/-- C10: the inactive-user denial written at src/reader/reader.py lines
23-29 and 52-57 can never execute: the `User` model declares no
`is_active` column, so no row can even represent an inactive user, and
on a candidate that hash-matches a stored record the dereference raises
`AttributeError` before any denial decision — verification never
performs the claimed return of false. -/
theorem inactive_user_check_never_runs :
    userIsActive pinB.user = Except.error "AttributeError: is_active" ∧
    pinMatches D0 "9999" pinB = true ∧
    check_input D0 [pinB] [] snap0 now0 "9999" =
      Except.error "AttributeError: is_active" ∧
    check_input D0 [pinB] [] snap0 now0 "9999" ≠ Except.ok false := by
  refine ⟨rfl, by decide, rfl, ?_⟩
  intro hb
  rw [show check_input D0 [pinB] [] snap0 now0 "9999" =
      Except.error "AttributeError: is_active" from rfl] at hb
  exact Except.noConfusion hb

theorem lookup_eq_none_of_not_mem_keys (l : List (String × String)) (s : String)
    (h : s ∉ l.map Prod.fst) : l.lookup s = none := by
  induction l with
  | nil => rfl
  | cons p rest ih =>
      obtain ⟨k, v⟩ := p
      simp only [List.map_cons, List.mem_cons] at h
      push_neg at h
      have hk : (s == k) = false := by simpa using h.1
      simp [List.lookup, hk, ih h.2]

/-- C9: `decode_keypad_input` inverts the fixed 12-entry table: every
table entry decodes to its character, and every sequence outside the
table keys decodes to the empty no-match value, never an error. -/
theorem decode_keypad_input_roundtrip :
    (∀ p ∈ KEY_CODES, decode_keypad_input p.1 = p.2) ∧
    (∀ s : String, s ∉ KEY_CODES.map Prod.fst → decode_keypad_input s = "") ∧
    KEY_CODES.length = 12 ∧
    KEY_CODES.map Prod.snd =
      ["1", "2", "3", "4", "5", "6", "7", "8", "9", "0", "*", "#"] := by
  refine ⟨by decide, ?_, by decide, by decide⟩
  intro s hs
  unfold decode_keypad_input
  rw [lookup_eq_none_of_not_mem_keys KEY_CODES s hs]

theorem decode_keypad_input_roundtrip_witness :
    (("0225", "1") ∈ KEY_CODES ∧ decode_keypad_input "0225" = "1") ∧
    (("9999" : String) ∉ KEY_CODES.map Prod.fst ∧ decode_keypad_input "9999" = "") :=
  ⟨⟨by decide, decode_keypad_input_roundtrip.1 ("0225", "1") (by decide)⟩,
    ⟨by decide, decode_keypad_input_roundtrip.2.1 "9999" (by decide)⟩⟩

/-- The row `save_pin` persists (src/db.py lines 435-437): user id, the
hashed PIN, the label and the salt — there is no plaintext column. -/
structure SavedPin where
  user_id : Nat
  hashed_pin : String
  label : String
  salt : String
deriving DecidableEq, Repr

/-- The hashing and persistence step of `create_pin`
(src/api/routes/pins.py lines 83-86):
`hashed_pin = hash_secret(payload=pin, salt=salt)` followed by
`save_pin(user_id, hashed_pin, label, salt)`. The freshly generated
random salt is a parameter here. -/
def create_pin_save (D : List Nat → String) (user_id : Nat)
    (pin label salt : String) : Except String SavedPin :=
  match hash_secret D pin (some salt) with
  | Except.error e => Except.error e
  | Except.ok h => Except.ok ⟨user_id, h, label, salt⟩

/-- C7 counterexample: the persisted hash field is not the bare digest of
salt followed by plaintext; with salt ab and plaintext 1234 the stored
value carries the salt hex 6162 prepended to the digest. -/
theorem persisted_hash_not_bare_digest :
    create_pin_save D0 1 "1234" "home" "ab" =
      Except.ok ⟨1, "6162" ++ D0 (utf8Bytes "ab" ++ utf8Bytes "1234"), "home", "ab"⟩ ∧
    ("6162" ++ D0 (utf8Bytes "ab" ++ utf8Bytes "1234")) ≠
      D0 (utf8Bytes "ab" ++ utf8Bytes "1234") :=
  ⟨rfl, by decide⟩

/-- C7 (amended): for a non-empty plaintext and the non-empty generated
salt, the persisted hash field is the salt hex prepended to the digest
of salt followed by plaintext, and the record depends on the plaintext
only through that digest — no plaintext field is persisted. -/
theorem persisted_hash_is_salt_prefixed_digest (D : List Nat → String)
    (uid : Nat) (pin label salt : String) (hp : pin ≠ "") (hs : salt ≠ "") :
    create_pin_save D uid pin label salt =
      Except.ok ⟨uid,
        hexOfBytes (utf8Bytes salt) ++ D (utf8Bytes salt ++ utf8Bytes pin),
        label, salt⟩ ∧
    (∀ pin' : String, pin' ≠ "" →
      D (utf8Bytes salt ++ utf8Bytes pin) = D (utf8Bytes salt ++ utf8Bytes pin') →
      create_pin_save D uid pin label salt = create_pin_save D uid pin' label salt) := by
  constructor
  · unfold create_pin_save
    rw [hash_secret_ok D pin salt hp]
    unfold saltedHash
    rw [if_neg hs]
  · intro pin' hp' hdig
    unfold create_pin_save
    rw [hash_secret_ok D pin salt hp, hash_secret_ok D pin' salt hp']
    unfold saltedHash
    rw [if_neg hs, if_neg hs, hdig]

theorem persisted_hash_is_salt_prefixed_digest_witness :
    (("1234" : String) ≠ "" ∧ ("ab" : String) ≠ "") ∧
    create_pin_save D0 5 "1234" "home" "ab" =
      Except.ok ⟨5,
        hexOfBytes (utf8Bytes "ab") ++ D0 (utf8Bytes "ab" ++ utf8Bytes "1234"),
        "home", "ab"⟩ :=
  ⟨⟨by decide, by decide⟩,
    (persisted_hash_is_salt_prefixed_digest D0 5 "1234" "home" "ab"
      (by decide) (by decide)).1⟩

/-- The status of the gathered reader/processor task pair once created. -/
inductive TaskState
  | running
  | cancelled
deriving DecidableEq, Repr

/-- The module-level capture state of src/reader/reader.py:
`task_running`, `reader_status` and the optional gathered task. -/
structure ReaderState where
  task_running : Bool
  reader_status : String
  reader_task : Option TaskState
deriving DecidableEq, Repr

/-- A log line emitted by the lifecycle functions. Neither function has
an uncaught raise: `stop_reader` swallows `CancelledError` and catches
every other shutdown exception, `start_reader` only branches and logs;
so the embedding is total and the no-op branches log a warning. -/
inductive LogLine
  | info (msg : String)
  | warning (msg : String)
  | error (msg : String)
deriving DecidableEq, Repr

/-- Shallow embedding of `start_reader` (src/reader/reader.py lines
129-144): when not running, set the flags, create the gathered task and
log; when already running, change nothing and log a warning. -/
def start_reader (s : ReaderState) : ReaderState × List LogLine :=
  if !s.task_running then
    (⟨true, "running", some TaskState.running⟩, [LogLine.info "Reader started"])
  else (s, [LogLine.warning "Reader is already running"])

/-- Shallow embedding of `stop_reader` (src/reader/reader.py lines
147-163): when running, clear the flags, cancel and await the gathered
task if there is one (`CancelledError` is caught, the `finally` block
logs); when not running, change nothing and log a warning. -/
def stop_reader (s : ReaderState) : ReaderState × List LogLine :=
  if s.task_running then
    match s.reader_task with
    | some _ =>
        (⟨false, "stopped", some TaskState.cancelled⟩,
          [LogLine.info "Reader stop requested"])
    | none => (⟨false, "stopped", none⟩, [])
  else (s, [LogLine.warning "Reader is not running"])

/-- C8: stopping twice has the same observable effect as stopping once —
the state after the second stop is the state after the first, which is
stopped whenever the first call had anything to stop — and the redundant
second stop, like starting while already running or stopping while
already stopped, is a no-op that only logs a warning, never an error. -/
theorem reader_lifecycle_idempotent (s : ReaderState) :
    (stop_reader (stop_reader s).1).1 = (stop_reader s).1 ∧
    (stop_reader (stop_reader s).1).2 = [LogLine.warning "Reader is not running"] ∧
    (stop_reader s).1.task_running = false ∧
    (s.task_running = true → (stop_reader s).1.reader_status = "stopped") ∧
    (s.task_running = true →
      start_reader s = (s, [LogLine.warning "Reader is already running"])) ∧
    (s.task_running = false →
      stop_reader s = (s, [LogLine.warning "Reader is not running"])) ∧
    (∀ m, LogLine.error m ∉ (stop_reader s).2 ∧ LogLine.error m ∉ (start_reader s).2) := by
  obtain ⟨tr, st, tk⟩ := s
  cases tr
  · simp [stop_reader, start_reader]
  · cases tk <;> simp [stop_reader, start_reader]

theorem reader_lifecycle_idempotent_witness :
    ((⟨true, "running", some TaskState.running⟩ : ReaderState).task_running = true) ∧
    (stop_reader (stop_reader ⟨true, "running", some TaskState.running⟩).1).1 =
      (stop_reader ⟨true, "running", some TaskState.running⟩).1 ∧
    (stop_reader ⟨true, "running", some TaskState.running⟩).1.reader_status = "stopped" ∧
    start_reader ⟨true, "running", some TaskState.running⟩ =
      (⟨true, "running", some TaskState.running⟩,
        [LogLine.warning "Reader is already running"]) :=
  ⟨rfl,
    (reader_lifecycle_idempotent ⟨true, "running", some TaskState.running⟩).1,
    (reader_lifecycle_idempotent ⟨true, "running", some TaskState.running⟩).2.2.2.1 rfl,
    (reader_lifecycle_idempotent ⟨true, "running", some TaskState.running⟩).2.2.2.2.1 rfl⟩

/-- One relay transition: at `time` the relay output becomes `energized`. -/
structure RelayEvent where
  time : Nat
  energized : Bool
deriving DecidableEq, Repr

/-- One run of the `unlock_door` coroutine (src/utils.py lines 41-63):
started at `start`, holding the relay for `duration`, and cancelled at
`cancelTime` if the door manager superseded it. -/
structure UnlockTicket where
  start : Nat
  duration : Nat
  cancelTime : Option Nat
deriving DecidableEq, Repr

/-- The relay transitions one ticket produces. `unlock_door` energizes
the relay as soon as it starts and de-energizes it `duration` later. A
cancellation delivered during `asyncio.sleep` raises `CancelledError`,
which the `except Exception` clause of `unlock_door` does not catch
(`CancelledError` derives from `BaseException` on the Python versions
this code requires), so a ticket cancelled before its hold elapses ends
without any further relay transition. -/
def ticketEvents (t : UnlockTicket) : List RelayEvent :=
  match t.cancelTime with
  | some c =>
      if c < t.start + t.duration then [⟨t.start, true⟩]
      else [⟨t.start, true⟩, ⟨t.start + t.duration, false⟩]
  | none => [⟨t.start, true⟩, ⟨t.start + t.duration, false⟩]

/-- The `DoorManager` state (src/door_manager.py): the current
`_unlock_task` ticket, plus the superseded tickets kept so their relay
transitions stay observable. -/
structure DMState where
  current : Option UnlockTicket
  superseded : List UnlockTicket
deriving DecidableEq, Repr

/-- Models `task.done()` at instant `now`: an uncancelled ticket is done
once its hold has elapsed. -/
def ticketDone (t : UnlockTicket) (now : Nat) : Bool :=
  t.start + t.duration ≤ now

/-- Shallow embedding of `DoorManager.unlock` (src/door_manager.py lines
18-32) called at instant `now`: under the internal cooperative lock, a
still-pending ticket is cancelled at `now` and awaited, then the new
ticket starts at `now` and the call returns at once with the initiation
message — the caller never waits out the hold duration. -/
def DoorManager.unlock (s : DMState) (now duration : Nat) : DMState × String :=
  let superseded :=
    match s.current with
    | some t =>
        if ticketDone t now then s.superseded ++ [t]
        else s.superseded ++ [{ t with cancelTime := some now }]
    | none => s.superseded
  (⟨some ⟨now, duration, none⟩, superseded⟩, "Door unlock initiated")

/-- All relay transitions of every ticket a run created, in creation
order (which is time order for the runs considered here). -/
def allEvents (s : DMState) : List RelayEvent :=
  (s.superseded ++ s.current.toList).flatMap ticketEvents

/-- The relay level observed at instant `t`: the last transition at or
before `t`, the relay starting de-energized. -/
def relayAt (evs : List RelayEvent) (t : Nat) : Bool :=
  (evs.filter (fun e => e.time ≤ t)).foldl (fun _ e => e.energized) false

/-- C2: unlock at `t0` for 5, then unlock again at `t1` before the first
hold elapses: the first ticket is cancelled at `t1` and recorded before
the new ticket starts, the call returns the initiation message at once,
exactly one de-energize transition ever occurs — at `t1 + 5`, five
after the second call — and the relay is energized at every instant
from `t0` up to `t1 + 5`, so it never flickers off across the
transition. -/
theorem door_manager_cancel_restart_single_deenergize (t0 t1 : Nat)
    (h0 : t0 ≤ t1) (h1 : t1 < t0 + 5) :
    DoorManager.unlock (DoorManager.unlock ⟨none, []⟩ t0 5).1 t1 5 =
      (⟨some ⟨t1, 5, none⟩, [⟨t0, 5, some t1⟩]⟩, "Door unlock initiated") ∧
    allEvents ⟨some ⟨t1, 5, none⟩, [⟨t0, 5, some t1⟩]⟩ =
      [⟨t0, true⟩, ⟨t1, true⟩, ⟨t1 + 5, false⟩] ∧
    (allEvents ⟨some ⟨t1, 5, none⟩, [⟨t0, 5, some t1⟩]⟩).filter
        (fun e => !e.energized) = [⟨t1 + 5, false⟩] ∧
    (∀ t, t0 ≤ t → t < t1 + 5 →
      relayAt (allEvents ⟨some ⟨t1, 5, none⟩, [⟨t0, 5, some t1⟩]⟩) t = true) ∧
    relayAt (allEvents ⟨some ⟨t1, 5, none⟩, [⟨t0, 5, some t1⟩]⟩) (t1 + 5) = false := by
  have hnd : ¬ (t0 + 5 ≤ t1) := by omega
  have hev : allEvents ⟨some ⟨t1, 5, none⟩, [⟨t0, 5, some t1⟩]⟩ =
      [⟨t0, true⟩, ⟨t1, true⟩, ⟨t1 + 5, false⟩] := by
    simp [allEvents, ticketEvents, h1]
  refine ⟨?_, hev, ?_, ?_, ?_⟩
  · simp [DoorManager.unlock, ticketDone, hnd]
  · rw [hev]
    simp [List.filter]
  · intro t ht0 ht5
    rw [hev]
    have h2 : ¬ (t1 + 5 ≤ t) := by omega
    by_cases h : t1 ≤ t <;> simp [relayAt, List.filter, ht0, h, h2]
  · rw [hev]
    have ha : t0 ≤ t1 + 5 := by omega
    have hb : t1 ≤ t1 + 5 := by omega
    simp [relayAt, List.filter, ha, hb]

theorem door_manager_cancel_restart_single_deenergize_witness :
    ((0 : Nat) ≤ 2 ∧ 2 < 0 + 5) ∧
    DoorManager.unlock (DoorManager.unlock ⟨none, []⟩ 0 5).1 2 5 =
      (⟨some ⟨2, 5, none⟩, [⟨0, 5, some 2⟩]⟩, "Door unlock initiated") ∧
    (allEvents ⟨some ⟨2, 5, none⟩, [⟨0, 5, some 2⟩]⟩).filter
        (fun e => !e.energized) = [⟨7, false⟩] :=
  ⟨⟨by decide, by decide⟩,
    (door_manager_cancel_restart_single_deenergize 0 2 (by decide) (by decide)).1,
    (door_manager_cancel_restart_single_deenergize 0 2 (by decide) (by decide)).2.2.1⟩

/-- Appending to a Python `deque(maxlen=n)`: when full, the oldest entry
drops out on the left as the new one enters on the right. -/
def dequeAppend (maxlen : Nat) (xs : List String) (x : String) : List String :=
  let ys := xs ++ [x]
  ys.drop (ys.length - maxlen)

/-- The shared mutable pieces of the t9em branch of
`read_keyboard_events` (src/reader/input_handler.py lines 199-230): the
candidate buffer `input_buffer` (maxlen 20), the per-key sub-sequence
buffer `t9em_input_buffer` (maxlen 10) and the `result_found` event.
The inter-keystroke timing fields are not represented: a step below is
one key handled within the timeout. -/
structure T9emState where
  input_buffer : List String
  t9em_buffer : List String
  result_found : Bool
deriving DecidableEq, Repr

/-- One key processed in t9em mode (the `INPUT_SOURCE == "t9em"` branch).
A non-ENTER key joins the sub-sequence buffer. ENTER joins the
sub-sequence and passes it through `decode_keypad_input` exactly once;
a hit of `*` or `#` clears both buffers, any other hit is appended to
the candidate buffer, and a miss puts the raw sub-sequence itself on
the input queue (setting `result_found`) while clearing the candidate
buffer; afterwards a candidate buffer at or beyond the PIN length is
joined, put on the queue and cleared, and the sub-sequence buffer is
always cleared. Returns the new state and the values put on the queue. -/
def t9emStep (pinLength : Nat) (s : T9emState) (key : String) :
    T9emState × List String :=
  if key == "ENTER" then
    let input_sequence := String.join s.t9em_buffer
    let decoded_key := decode_keypad_input input_sequence
    let step1 : List String × Bool × List String :=
      if decoded_key ≠ "" then
        if decoded_key == "*" || decoded_key == "#" then
          ([], s.result_found, [])
        else (dequeAppend 20 s.input_buffer decoded_key, s.result_found, [])
      else
        if !s.result_found then ([], true, [input_sequence])
        else ([], s.result_found, [])
    let step2 : List String × Bool × List String :=
      if pinLength ≤ step1.1.length then
        if !step1.2.1 then ([], true, step1.2.2 ++ [String.join step1.1])
        else ([], step1.2.1, step1.2.2)
      else step1
    (⟨step2.1, [], step2.2.1⟩, step2.2.2)
  else
    (⟨s.input_buffer, dequeAppend 10 s.t9em_buffer key, s.result_found⟩, [])

/-- C5 counterexample: on ENTER after the undecodable sub-sequence 123,
the raw sub-sequence is not appended to the candidate buffer — the
buffer ends empty — and 123 is instead emitted directly on the input
queue as a completed candidate. -/
theorem t9em_miss_emits_queue_not_buffer :
    t9emStep 4 ⟨[], ["1", "2", "3"], false⟩ "ENTER" = (⟨[], [], true⟩, ["123"]) ∧
    (t9emStep 4 ⟨[], ["1", "2", "3"], false⟩ "ENTER").1.input_buffer ≠ ["123"] := by
  refine ⟨by decide, by decide⟩

/-- C5 (amended): on the per-key terminator ENTER the accumulated
sub-sequence is passed through `decode_keypad_input` exactly once and
the step is determined by that single decode: a miss emits the raw
sub-sequence itself on the candidate queue (the RFID path) and leaves
the candidate buffer empty; a decoded digit is appended to the
candidate buffer (the PIN path), the joined buffer being emitted once
it reaches the PIN length; a decoded `*` or `#` resets both buffers. -/
theorem t9em_enter_single_decode_cases (pl : Nat) (s : T9emState)
    (hfound : s.result_found = false) (hpl : 0 < pl) :
    (decode_keypad_input (String.join s.t9em_buffer) = "" →
      t9emStep pl s "ENTER" = (⟨[], [], true⟩, [String.join s.t9em_buffer])) ∧
    (∀ d, decode_keypad_input (String.join s.t9em_buffer) = d → d ≠ "" →
      d ≠ "*" → d ≠ "#" → (dequeAppend 20 s.input_buffer d).length < pl →
      t9emStep pl s "ENTER" = (⟨dequeAppend 20 s.input_buffer d, [], false⟩, [])) ∧
    (∀ d, decode_keypad_input (String.join s.t9em_buffer) = d → d ≠ "" →
      d ≠ "*" → d ≠ "#" → pl ≤ (dequeAppend 20 s.input_buffer d).length →
      t9emStep pl s "ENTER" =
        (⟨[], [], true⟩, [String.join (dequeAppend 20 s.input_buffer d)])) ∧
    (∀ d, decode_keypad_input (String.join s.t9em_buffer) = d →
      (d = "*" ∨ d = "#") →
      t9emStep pl s "ENTER" = (⟨[], [], false⟩, [])) := by
  have hq : ¬ (pl ≤ 0) := by omega
  refine ⟨?_, ?_, ?_, ?_⟩
  · intro hmiss
    simp [t9emStep, hmiss, hfound, hq]
  · intro d hd hne h1 h2 hlen
    have h3 : ¬ (pl ≤ (dequeAppend 20 s.input_buffer d).length) := by omega
    simp [t9emStep, hd, hne, h1, h2, h3, hfound]
  · intro d hd hne h1 h2 hlen
    simp [t9emStep, hd, hne, h1, h2, hlen, hfound]
  · intro d hd hdisj
    rcases hdisj with h | h <;> subst h <;> simp [t9emStep, hd, hq, hfound]

theorem t9em_enter_single_decode_cases_witness :
    ((⟨["1"], ["0", "2", "2", "5"], false⟩ : T9emState).result_found = false ∧
      (0 : Nat) < 4 ∧
      decode_keypad_input
        (String.join (⟨["1"], ["0", "2", "2", "5"], false⟩ : T9emState).t9em_buffer) = "1" ∧
      (dequeAppend 20 ["1"] "1").length < 4) ∧
    t9emStep 4 ⟨["1"], ["0", "2", "2", "5"], false⟩ "ENTER" =
      (⟨["1", "1"], [], false⟩, []) :=
  ⟨⟨rfl, by decide, by decide, by decide⟩, by
    have h := (t9em_enter_single_decode_cases 4 ⟨["1"], ["0", "2", "2", "5"], false⟩
      rfl (by decide)).2.1 "1" (by decide) (by decide) (by decide) (by decide) (by decide)
    simpa using h⟩
